import Mathlib

/-!
Verification development for the xuman booking platform.

Shallow embedding of the service and repository layers
(`services/bookings_service.py`, `services/payments_service.py`,
`services/notifications_service.py`, `services/sse_manager.py`,
`repositories/*.py`) as pure Lean functions over explicit state.

Modelling conventions, applied uniformly:
* Database tables become Lean lists of records; SQL `INSERT`/`UPDATE`/
  `DELETE`/`SELECT` become list append/map/filter/find?.
* `uuid4()` identifier generation and `random.random()` draws are
  nondeterministic inputs; they are passed as explicit parameters
  (`bid`, `pid`, `rid`, `failDraw`, ...) and theorems that need
  freshness state it as a hypothesis.
* SQL integrity errors (duplicate primary key / unique column), which the
  repositories re-raise as `ValueError`, are modelled by an `Option`
  result: `none` is the propagated exception.
* Monetary amounts (Python `float`) are modelled as `Rat`.
* Wall-clock timestamp columns (`created_at`, `updated_at`, `read_at`,
  `scheduledAt`) carry no claim-relevant information and are omitted;
  the current date used by `validate_payment_method` is passed in as
  `(currentYear, currentMonth)`.
* Real-time notification emission (the `NotificationsService.create_*`
  helpers called best-effort from the services) is recorded as a list of
  emitted `Event`s (recipient plus `NotificationType`); the notification
  row store and the live SSE channel registry are modelled separately for
  the notification-layer claims.
* Python `str.isdigit` is modelled over ASCII digits; `str.lower().strip()`
  email normalisation is omitted (emails are taken as canonical).
-/

namespace Xuman

/-- `BookingStatus` enum from `models.py`. -/
inductive BookingStatus where
  | pending
  | confirmed
  | completed
  | cancelled
deriving DecidableEq, Repr

/-- Payment status strings from `models.py` (`PaymentResponse.status`
is one of the strings pending / completed / failed / refunded). -/
inductive PayStatus where
  | pending
  | completed
  | failed
  | refunded
deriving DecidableEq, Repr

/-- Refund status strings from `models.py` (`RefundResponse.status`). -/
inductive RefundStatus where
  | pending
  | completed
  | failed
deriving DecidableEq, Repr

/-- `NotificationType` enum from `models.py`. -/
inductive NotificationType where
  | booking_created
  | booking_updated
  | booking_cancelled
  | payment_success
  | payment_failed
  | refund_processed
  | service_created
  | service_updated
  | service_deleted
  | password_reset
  | password_reset_confirmed
deriving DecidableEq, Repr

/-- `PaymentMethod` from `models.py` (the `type = "card"` constant field
is omitted). -/
structure PaymentMethod where
  cardNumber : String
  expiryMonth : Nat
  expiryYear : Nat
  cvv : String
  cardholderName : String
deriving DecidableEq, Repr

/-- `PaymentRequest` from `models.py`. -/
structure PaymentRequest where
  bookingId : String
  amount : Rat
  currency : String
  paymentMethod : PaymentMethod
deriving DecidableEq, Repr

/-- `PaymentResponse` from `models.py`: the persisted shape of a payment
row. -/
structure Payment where
  id : String
  bookingId : String
  status : PayStatus
  transactionId : String
  amount : Rat
  currency : String
  paymentMethod : PaymentMethod
  failureReason : Option String
deriving DecidableEq, Repr

/-- `RefundResponse` from `models.py`: the persisted shape of a refund
row. -/
structure Refund where
  id : String
  paymentId : String
  status : RefundStatus
  amount : Rat
  reason : Option String
deriving DecidableEq, Repr

/-- `Booking` from `models.py` (timestamp fields omitted; the booking
service reads `service.durationMinutes` into `duration`). -/
structure Booking where
  id : String
  customerId : String
  serviceId : String
  providerId : String
  status : BookingStatus
  duration : Nat
  totalAmount : Rat
  notes : Option String
deriving DecidableEq, Repr

/-- The service record as the bookings flow consumes it
(`service.providerId`, `service.name`, `service.price`,
`service.durationMinutes` in `bookings_service.py` and
`services_service.py`; `models.py` spells the last two `title` /
`duration` — the mid-refactor field naming does not affect any claim). -/
structure Service where
  id : String
  providerId : String
  name : String
  price : Rat
  durationMinutes : Nat
deriving DecidableEq, Repr

/-- `User` from `models.py`, restricted to the claim-relevant identity
fields. -/
structure User where
  id : String
  email : String
deriving DecidableEq, Repr

/-- The relational store shared by the bookings and payments
repositories (tables `users`, `services`, `bookings`, `payments`,
`refunds`). -/
structure Db where
  users : List User
  services : List Service
  bookings : List Booking
  payments : List Payment
  refunds : List Refund
deriving DecidableEq, Repr

/-- A real-time notification emission: recipient identity and
`NotificationType`, as passed to the `NotificationsService.create_*`
helpers by the bookings/payments services. -/
structure Event where
  userId : String
  type : NotificationType
deriving DecidableEq, Repr

/-! ## Repository layer -/

/-- `UsersRepository.get_by_email`: `SELECT * FROM users WHERE email = …`
(first row). `UsersRepository` defines no other lookup: in particular
there is **no** `get_by_id` method on the class. -/
def UsersRepository.get_by_email (db : Db) (email : String) : Option User :=
  db.users.find? (fun u => u.email = email)

/-- `ServicesRepository.get_service`: `SELECT * FROM services WHERE id = …`. -/
def ServicesRepository.get_service (db : Db) (sid : String) : Option Service :=
  db.services.find? (fun s => s.id = sid)

/-- `BookingsRepository.get_booking`: `SELECT * FROM bookings WHERE id = …`. -/
def BookingsRepository.get_booking (db : Db) (bid : String) : Option Booking :=
  db.bookings.find? (fun b => b.id = bid)

/-- `BookingsRepository.create_booking`: `INSERT INTO bookings …`;
a duplicate primary key raises `IntegrityError` → `ValueError`
(modelled as `none`). -/
def BookingsRepository.create_booking (db : Db) (b : Booking) : Option Db :=
  if db.bookings.any (fun x => x.id = b.id) then none
  else some { db with bookings := db.bookings ++ [b] }

/-- `BookingsRepository.update_booking`: `UPDATE bookings SET … WHERE id
= :booking_id RETURNING *`; the row keeps its key, every other column is
overwritten from `updated`; returns `none` when no row matched. -/
def BookingsRepository.update_booking (db : Db) (bid : String) (updated : Booking) :
    Db × Option Booking :=
  if db.bookings.any (fun x => x.id = bid) then
    let row := { updated with id := bid }
    ({ db with bookings := db.bookings.map (fun x => if x.id = bid then row else x) },
      some row)
  else (db, none)

/-- `BookingsRepository.delete_booking`: `DELETE FROM bookings WHERE id
= … RETURNING id`; `true` iff a row was deleted. -/
def BookingsRepository.delete_booking (db : Db) (bid : String) : Db × Bool :=
  if db.bookings.any (fun x => x.id = bid) then
    ({ db with bookings := db.bookings.filter (fun x => ¬ x.id = bid) }, true)
  else (db, false)

/-- `PaymentsRepository.get_payment`: `SELECT * FROM payments WHERE id = …`. -/
def PaymentsRepository.get_payment (db : Db) (pid : String) : Option Payment :=
  db.payments.find? (fun p => p.id = pid)

/-- `PaymentsRepository.create_payment`: `INSERT INTO payments …`; the
`id` primary key and the `booking_id UNIQUE` column can violate
integrity (`IntegrityError` → `ValueError`, modelled as `none`); the
`transaction_id UNIQUE` and foreign-key constraints are not modelled. -/
def PaymentsRepository.create_payment (db : Db) (p : Payment) : Option Db :=
  if db.payments.any (fun q => q.id = p.id ∨ q.bookingId = p.bookingId) then none
  else some { db with payments := db.payments ++ [p] }

/-- `PaymentsRepository.update_payment_status`: `UPDATE payments SET
status, failure_reason WHERE id = …`; note the call sites pass no
`failure_reason`, so the column is overwritten (with `NULL` by default);
returns `rowcount > 0`. -/
def PaymentsRepository.update_payment_status (db : Db) (pid : String)
    (status : PayStatus) (failureReason : Option String) : Db × Bool :=
  ({ db with payments :=
      db.payments.map (fun q =>
        if q.id = pid then { q with status := status, failureReason := failureReason } else q) },
    db.payments.any (fun q => q.id = pid))

/-- `PaymentsRepository.create_refund`: `INSERT INTO refunds …`
(duplicate primary key modelled as `none`). -/
def PaymentsRepository.create_refund (db : Db) (r : Refund) : Option Db :=
  if db.refunds.any (fun x => x.id = r.id) then none
  else some { db with refunds := db.refunds ++ [r] }

/-! ## Payments service -/

/-- The placeholder recipient hard-coded in
`PaymentsService.process_payment` / `process_refund`. -/
def placeholderUser : String := "customer@example.com"

/-- The fixed list drawn from by
`PaymentsService._get_random_failure_reason`. -/
def failureReasons : List String :=
  [r"Insufficient funds", r"Card declined by bank", r"Invalid card number",
   r"Expired card", r"CVV verification failed", r"Transaction timeout",
   r"Network error", r"Card blocked", r"Daily limit exceeded",
   r"Fraud detection triggered"]

/-- `PaymentsService._get_random_failure_reason`: `random.choice` over
`failureReasons`, with the random draw passed in as an index. -/
def PaymentsService.get_random_failure_reason (i : Nat) : String :=
  failureReasons.getD (i % failureReasons.length) (r"Insufficient funds")

/-- `PaymentsService.process_payment`. `failDraw` is the outcome of
`random.random() < failure_rate`; `reasonIdx` the failure-reason draw;
`pid`/`tid` the generated payment id and transaction id. Returns the
updated store, the saved payment, and the emitted notification events
(`none` models the propagated `IntegrityError`). -/
def PaymentsService.process_payment (db : Db) (req : PaymentRequest)
    (failDraw : Bool) (reasonIdx : Nat) (pid tid : String) :
    Option (Db × Payment × List Event) :=
  let pending : Payment :=
    { id := pid, bookingId := req.bookingId, status := .pending,
      transactionId := tid, amount := req.amount, currency := req.currency,
      paymentMethod := req.paymentMethod, failureReason := none }
  let payment :=
    if failDraw then
      { pending with status := .failed,
                     failureReason := some (PaymentsService.get_random_failure_reason reasonIdx) }
    else
      { pending with status := .completed }
  match PaymentsRepository.create_payment db payment with
  | none => none
  | some db1 =>
      let ev : Event :=
        { userId := placeholderUser,
          type := if payment.status = .completed then .payment_success else .payment_failed }
      some (db1, payment, [ev])

/-- Default reason in `PaymentsService.process_refund`. -/
def defaultRefundReason : String := "Customer requested refund"

/-- `PaymentsService.process_refund`. `rid` is the generated refund id.
Returns `some (db, none, [])` when the payment is missing or not
eligible (the Python method returns `None` without touching state), and
`some (db2, some refund, events)` on success. -/
def PaymentsService.process_refund (db : Db) (paymentId : String)
    (reason : Option String) (rid : String) :
    Option (Db × Option Refund × List Event) :=
  match PaymentsRepository.get_payment db paymentId with
  | none => some (db, none, [])
  | some payment =>
      if payment.status ≠ .completed then some (db, none, [])
      else
        let refund : Refund :=
          { id := rid, paymentId := paymentId, status := .completed,
            amount := payment.amount,
            reason := some (reason.getD defaultRefundReason) }
        match PaymentsRepository.create_refund db refund with
        | none => none
        | some db1 =>
            let db2 := (PaymentsRepository.update_payment_status db1 paymentId .refunded none).1
            some (db2, some refund, [{ userId := placeholderUser, type := .refund_processed }])

/-- Python `str.isdigit` (ASCII digits; `False` on the empty string). -/
def pyIsdigit (s : String) : Bool :=
  s.length > 0 && s.data.all Char.isDigit

def errCardDigits : String := "Card number must contain only digits"

def errCardExpired : String := "Card has expired"

def errCvvDigits : String := "CVV must contain only digits"

/-- `PaymentsService.validate_payment_method`, with the current date
(`datetime.now().year` / `.month`) passed in explicitly. -/
def PaymentsService.validate_payment_method (pm : PaymentMethod)
    (currentYear currentMonth : Nat) : Bool × Option String :=
  if ¬ pyIsdigit pm.cardNumber then (false, some errCardDigits)
  else if pm.expiryYear < currentYear then (false, some errCardExpired)
  else if pm.expiryYear = currentYear ∧ pm.expiryMonth < currentMonth then
    (false, some errCardExpired)
  else if ¬ pyIsdigit pm.cvv then (false, some errCvvDigits)
  else (true, none)

/-- A call of `validate_payment_method` on a `PaymentsService` whose
repository state is `db` and whose next random draw (the one
`process_payment` would consume) is `failDraw`: the method reads
neither. -/
def PaymentsService.validate_call (db : Db) (failDraw : Bool)
    (pm : PaymentMethod) (currentYear currentMonth : Nat) : Bool × Option String :=
  PaymentsService.validate_payment_method pm currentYear currentMonth

/-! ## Bookings service -/

/-- `BookingCreateRequest` from `models.py` (`scheduledAt` omitted). -/
structure BookingCreateRequest where
  serviceId : String
  notes : Option String
  payment : PaymentRequest
deriving DecidableEq, Repr

/-- `BookingUpdateRequest` from `models.py` (`scheduledAt` omitted). -/
structure BookingUpdateRequest where
  status : Option BookingStatus
  notes : Option String
deriving DecidableEq, Repr

/-- Result of a `create_booking` call as the caller observes it: a
normal return of the optional `BookingResponse`, or a Python exception
propagating out of the method. -/
inductive CreateResult where
  | ok (res : Option Booking)
  | error
deriving DecidableEq, Repr

/-- `BookingsService.create_booking`. The method resolves the service
(line 42: missing → return `None`); it then reads the customer by email
(line 47, a pure lookup) and at line 50 evaluates
`self.users_repo.get_by_id(service.providerId)` — but `UsersRepository`
defines no `get_by_id` method, so the attribute access raises
`AttributeError` unconditionally, outside any `try`/`except`, before
any booking, payment or refund is persisted. (With an empty
`customerEmail`, `get_by_email` itself raises `ValueError` at line 47
first — also an exception with nothing persisted.) Everything after
line 50 — booking insert, payment, compensation, notifications — is
unreachable, so the call either returns `CreateFailed` on a missing
service or propagates an exception, always leaving the store
untouched. -/
def BookingsService.create_booking (db : Db) (customerEmail : String)
    (payload : BookingCreateRequest) : Db × CreateResult :=
  match ServicesRepository.get_service db payload.serviceId with
  | none => (db, .ok none)
  | some _service => (db, .error)

/-- `BookingsService.update_booking` with its authorization check. The
real-time events it emits when the status changed are returned (note:
the code always passes `NotificationType.BOOKING_UPDATED` to
`create_booking_notification`, for a `CANCELLED` target status too). -/
def BookingsService.update_booking (db : Db) (bookingId : String)
    (payload : BookingUpdateRequest) (currentUserEmail : String) :
    Db × Option Booking × List Event :=
  match BookingsRepository.get_booking db bookingId with
  | none => (db, none, [])
  | some existing =>
    match UsersRepository.get_by_email db currentUserEmail with
    | none => (db, none, [])
    | some currentUser =>
        if existing.customerId ≠ currentUser.id ∧ existing.providerId ≠ currentUser.id then
          (db, none, [])
        else
          let oldStatus := existing.status
          let updated : Booking :=
            { existing with
                status := payload.status.getD existing.status,
                notes := match payload.notes with
                         | some n => some n
                         | none => existing.notes }
          match BookingsRepository.update_booking db bookingId updated with
          | (db1, none) => (db1, none, [])
          | (db1, some saved) =>
              let statusChanged : Bool :=
                match payload.status with
                | some s => decide (s ≠ oldStatus)
                | none => false
              let evs :=
                if statusChanged then
                  match ServicesRepository.get_service db1 existing.serviceId with
                  | some _service =>
                      [{ userId := existing.customerId, type := .booking_updated },
                       { userId := existing.providerId, type := .booking_updated }]
                  | none => []
                else []
              (db1, some saved, evs)

/-- `BookingsService.delete_booking` with its authorization check. -/
def BookingsService.delete_booking (db : Db) (bookingId : String)
    (currentUserEmail : String) : Db × Bool :=
  match BookingsRepository.get_booking db bookingId with
  | none => (db, false)
  | some existing =>
    match UsersRepository.get_by_email db currentUserEmail with
    | none => (db, false)
    | some currentUser =>
        if existing.customerId ≠ currentUser.id ∧ existing.providerId ≠ currentUser.id then
          (db, false)
        else
          BookingsRepository.delete_booking db bookingId

/-! ## Notifications layer

The live side of `NotificationsService`: `_subscribers` is the
`user_id -> list of SSE connections` dict (an association list in
insertion order, as Python dicts iterate); each connection is an
`asyncio.Queue` identified by a `Nat`, whose delivered frames are kept
in `queues`; `closed` is the set of connections whose `put` raises
(the only failure mode of a send). A frame is modelled by the id of the
serialized notification (the JSON/SSE wire shape carries no
claim-relevant structure). -/

/-- Live state of `NotificationsService`: the subscriber registry, the
per-connection delivered-frame queues, and the closed connections. -/
structure NotifState where
  subscribers : List (String × List Nat)
  queues : List (Nat × List String)
  closed : List Nat
deriving DecidableEq, Repr

/-- Dict lookup on the subscriber registry. -/
def NotifState.conns (s : NotifState) (uid : String) : Option (List Nat) :=
  (s.subscribers.find? (fun p => p.1 = uid)).map Prod.snd

/-- Frames delivered so far to connection `c`. -/
def NotifState.queueOf (s : NotifState) (c : Nat) : List String :=
  ((s.queues.find? (fun q => q.1 = c)).map Prod.snd).getD []

/-- `NotificationsService.subscribe_to_notifications`: create the key
with a singleton list, or append the connection. -/
def NotificationsService.subscribe (s : NotifState) (uid : String) (c : Nat) : NotifState :=
  match s.conns uid with
  | none => { s with subscribers := s.subscribers ++ [(uid, [c])] }
  | some l =>
      { s with subscribers :=
          s.subscribers.map (fun p => if p.1 = uid then (p.1, l ++ [c]) else p) }

/-- `NotificationsService.unsubscribe_from_notifications`:
`list.remove` drops the first occurrence (a missing connection raises
`ValueError`, which is swallowed — no change); a key whose list became
empty is deleted. -/
def NotificationsService.unsubscribe (s : NotifState) (uid : String) (c : Nat) : NotifState :=
  match s.conns uid with
  | none => s
  | some l =>
      if c ∈ l then
        let l' := l.erase c
        if l' = [] then
          { s with subscribers := s.subscribers.filter (fun p => ¬ p.1 = uid) }
        else
          { s with subscribers :=
              s.subscribers.map (fun p => if p.1 = uid then (p.1, l') else p) }
      else s

/-- `connection.put(message)`: appends the frame to the connection's
queue, or raises (`none`) when the connection is closed. -/
def NotifState.put (s : NotifState) (c : Nat) (msg : String) : Option NotifState :=
  if c ∈ s.closed then none
  else
    some { s with queues :=
             s.queues.map (fun q => if q.1 = c then (q.1, q.2 ++ [msg]) else q) }

/-- The send loop of `_broadcast_to_user`: put to every connection in
order, collecting the connections whose send failed. -/
def NotificationsService.sendLoop (conns : List Nat) (s : NotifState)
    (failed : List Nat) (msg : String) : NotifState × List Nat :=
  match conns with
  | [] => (s, failed)
  | c :: rest =>
      match s.put c msg with
      | some s' => NotificationsService.sendLoop rest s' failed msg
      | none => NotificationsService.sendLoop rest s (failed ++ [c]) msg

/-- `NotificationsService._broadcast_to_user`: send the frame to every
registered connection of `uid`, then unsubscribe the closed ones. -/
def NotificationsService.broadcast_to_user (s : NotifState) (uid : String)
    (msg : String) : NotifState :=
  match s.conns uid with
  | none => s
  | some conns =>
      let step := NotificationsService.sendLoop conns s [] msg
      step.2.foldl (fun st c => NotificationsService.unsubscribe st uid c) step.1

/-- A notification row (`models.py` `Notification` restricted to the
claim-relevant columns; `read_at` omitted). -/
structure Notification where
  id : String
  userId : String
  type : NotificationType
  isRead : Bool
deriving DecidableEq, Repr

/-- `NotificationsRepository.create_notification`: `INSERT INTO
notifications …`. -/
def NotificationsRepository.create_notification (rows : List Notification)
    (n : Notification) : List Notification :=
  rows ++ [n]

/-- `NotificationsRepository.mark_notification_as_read`: `UPDATE
notifications SET is_read = true WHERE id = … AND user_id = …`;
returns `rowcount > 0`. -/
def NotificationsRepository.mark_notification_as_read (rows : List Notification)
    (nid uid : String) : List Notification × Bool :=
  (rows.map (fun n => if n.id = nid ∧ n.userId = uid then { n with isRead := true } else n),
   rows.any (fun n => n.id = nid ∧ n.userId = uid))

/-- `NotificationsRepository.delete_notification`: `DELETE FROM
notifications WHERE id = … AND user_id = …`; returns `rowcount > 0`. -/
def NotificationsRepository.delete_notification (rows : List Notification)
    (nid uid : String) : List Notification × Bool :=
  (rows.filter (fun n => ¬ (n.id = nid ∧ n.userId = uid)),
   rows.any (fun n => n.id = nid ∧ n.userId = uid))

/-- `NotificationsService.create_notification`: persist the row, then
broadcast it to the user's connections. The broadcast is scheduled with
`asyncio.create_task`; tasks start in creation order and
`_broadcast_to_user` never suspends (its queue puts are non-blocking),
so successive broadcasts execute atomically in creation order — which
is what sequencing them here states. The frame is modelled by the
notification id. -/
def NotificationsService.create_notification (rows : List Notification)
    (s : NotifState) (uid : String) (ty : NotificationType) (nid : String) :
    List Notification × NotifState :=
  let n : Notification := { id := nid, userId := uid, type := ty, isRead := false }
  (NotificationsRepository.create_notification rows n,
   NotificationsService.broadcast_to_user s uid nid)

/-- `SSEManager`'s `_connections` registry (`sse_manager.py`). -/
structure SSEState where
  connections : List (String × List Nat)
deriving DecidableEq, Repr

/-- `SSEManager._remove_connection`: dict-scoped `list.remove` with
`ValueError` swallowed, deleting the key when its list became empty. -/
def SSEManager.remove_connection (s : SSEState) (uid : String) (c : Nat) : SSEState :=
  match (s.connections.find? (fun p => p.1 = uid)).map Prod.snd with
  | none => s
  | some l =>
      if c ∈ l then
        let l' := l.erase c
        if l' = [] then
          { s with connections := s.connections.filter (fun p => ¬ p.1 = uid) }
        else
          { s with connections :=
              s.connections.map (fun p => if p.1 = uid then (p.1, l') else p) }
      else s

/-! ## Generic list helpers -/

theorem anyP_eq_false_iff {α} (l : List α) (P : α → Prop) [DecidablePred P] :
    (l.any fun x => P x) = false ↔ ∀ x ∈ l, ¬ P x := by
  simp [List.any_eq_true]

theorem anyP_eq_true_iff {α} (l : List α) (P : α → Prop) [DecidablePred P] :
    (l.any fun x => P x) = true ↔ ∃ x ∈ l, P x := by
  simp [List.any_eq_true]

theorem map_ite_id {α} (l : List α) (P : α → Prop) [DecidablePred P] (f : α → α)
    (h : ∀ x ∈ l, ¬ P x) : (l.map fun x => if P x then f x else x) = l := by
  induction l with
  | nil => rfl
  | cons a t ih =>
      have ha : ¬ P a := h a (List.mem_cons_self a t)
      simp only [List.map_cons, if_neg ha]
      rw [ih (fun x hx => h x (List.mem_cons_of_mem a hx))]

theorem filter_not_id {α} (l : List α) (P : α → Prop) [DecidablePred P]
    (h : ∀ x ∈ l, ¬ P x) : (l.filter fun x => ¬ P x) = l := by
  induction l with
  | nil => rfl
  | cons a t ih =>
      have ha : ¬ P a := h a (List.mem_cons_self a t)
      simp only [List.filter_cons, decide_eq_true_eq]
      rw [if_pos ha, ih (fun x hx => h x (List.mem_cons_of_mem a hx))]

theorem filterP_eq_nil {α} (l : List α) (P : α → Prop) [DecidablePred P]
    (h : ∀ x ∈ l, ¬ P x) : (l.filter fun x => P x) = [] := by
  induction l with
  | nil => rfl
  | cons a t ih =>
      have ha : ¬ P a := h a (List.mem_cons_self a t)
      simp only [List.filter_cons, decide_eq_true_eq]
      rw [if_neg ha, ih (fun x hx => h x (List.mem_cons_of_mem a hx))]

/-! ## C6: payment-method validation rules -/

/-- C6. `ValidatePaymentMethod` returns `valid = true` with no error iff
the card number is all digits, the expiry year/month is not in the past
relative to the current date, and the CVV is all digits; in every other
case it returns `valid = false` together with an error message. -/
theorem c6_validate_payment_method_rules (pm : PaymentMethod) (y m : Nat) :
    ((PaymentsService.validate_payment_method pm y m).1 = true ↔
      (pyIsdigit pm.cardNumber = true ∧
       ¬ (pm.expiryYear < y ∨ (pm.expiryYear = y ∧ pm.expiryMonth < m)) ∧
       pyIsdigit pm.cvv = true)) ∧
    ((PaymentsService.validate_payment_method pm y m).1 = true →
      (PaymentsService.validate_payment_method pm y m).2 = none) ∧
    ((PaymentsService.validate_payment_method pm y m).1 = false →
      (PaymentsService.validate_payment_method pm y m).2.isSome = true) := by
  unfold PaymentsService.validate_payment_method
  split_ifs with h1 h2 h3 h4 <;> simp_all

/-- Concrete instrument for the C6 witness. -/
def c6pm : PaymentMethod :=
  { cardNumber := "4111111111111111", expiryMonth := 12, expiryYear := 2030,
    cvv := "123", cardholderName := "Jane Doe" }

/-- Witness for C6 at a concrete valid instrument and date. -/
theorem c6_witness :
    (PaymentsService.validate_payment_method c6pm 2025 10).2 = none :=
  (c6_validate_payment_method_rules c6pm 2025 10).2.1 (by decide)

/-! ## C7: validation is deterministic / state-independent -/

/-- C7. Two `ValidatePaymentMethod` calls with the identical instrument
(and the same current date) return the identical `(valid, error)` pair,
whatever the repository state and whatever random draw the gateway's
`ProcessPayment` would consume: the method reads neither. -/
theorem c7_validate_determinism (db₁ db₂ : Db) (r₁ r₂ : Bool)
    (pm : PaymentMethod) (y m : Nat) :
    PaymentsService.validate_call db₁ r₁ pm y m =
      PaymentsService.validate_call db₂ r₂ pm y m := rfl

/-! ## C10: notification operations are user-scoped -/

/-- C10. `mark_notification_as_read` and `delete_notification` succeed
exactly when a notification with the given id belongs to the requesting
user; when no such row exists (in particular when the id belongs to a
different user) both return `false` and leave every notification row of
every user untouched. -/
theorem c10_notifications_user_scoped (rows : List Notification) (nid uid : String) :
    ((NotificationsRepository.mark_notification_as_read rows nid uid).2 = true ↔
        ∃ n ∈ rows, n.id = nid ∧ n.userId = uid) ∧
    ((NotificationsRepository.delete_notification rows nid uid).2 = true ↔
        ∃ n ∈ rows, n.id = nid ∧ n.userId = uid) ∧
    ((∀ n ∈ rows, ¬ (n.id = nid ∧ n.userId = uid)) →
      NotificationsRepository.mark_notification_as_read rows nid uid = (rows, false) ∧
      NotificationsRepository.delete_notification rows nid uid = (rows, false)) := by
  refine ⟨anyP_eq_true_iff rows _, anyP_eq_true_iff rows _, ?_⟩
  intro h
  have hm1 := map_ite_id rows (fun n => n.id = nid ∧ n.userId = uid)
    (fun n => { n with isRead := true }) h
  have hf := filter_not_id rows (fun n => n.id = nid ∧ n.userId = uid) h
  have ha := (anyP_eq_false_iff rows (fun n => n.id = nid ∧ n.userId = uid)).mpr h
  constructor
  · unfold NotificationsRepository.mark_notification_as_read
    rw [hm1, ha]
  · unfold NotificationsRepository.delete_notification
    rw [hf, ha]

/-- Concrete row owned by a different user, for the C10 witness. -/
def c10n : Notification :=
  { id := "n1", userId := "alice", type := .booking_created, isRead := false }

/-- Witness for C10: a foreign user's mark/delete attempt returns
`false` and leaves the store unchanged. -/
theorem c10_witness :
    NotificationsRepository.mark_notification_as_read [c10n] "n1" "bob" = ([c10n], false) ∧
    NotificationsRepository.delete_notification [c10n] "n1" "bob" = ([c10n], false) :=
  (c10_notifications_user_scoped [c10n] "n1" "bob").2.2 (by decide)

/-! ## C4: ProcessPayment postcondition -/

/-- C4. Whenever the generated payment id and the booking id are fresh
(so the insert does not violate integrity), `process_payment` persists
exactly one payment row — appended to the store, everything else
untouched — and returns it; the returned status is `completed` or
`failed` (never `pending`), and `failureReason` is set iff the status
is `failed`. -/
theorem c4_process_payment_postcondition (db : Db) (req : PaymentRequest)
    (failDraw : Bool) (reasonIdx : Nat) (pid tid : String)
    (hfresh : ∀ p ∈ db.payments, ¬ (p.id = pid ∨ p.bookingId = req.bookingId)) :
    ∃ payment evs,
      PaymentsService.process_payment db req failDraw reasonIdx pid tid =
        some ({ db with payments := db.payments ++ [payment] }, payment, evs) ∧
      (payment.status = .completed ∨ payment.status = .failed) ∧
      (payment.failureReason.isSome = true ↔ payment.status = .failed) := by
  have hnex : ¬ ∃ x ∈ db.payments, x.id = pid ∨ x.bookingId = req.bookingId := by
    rintro ⟨x, hx, hor⟩
    exact hfresh x hx hor
  cases failDraw with
  | false =>
      refine ⟨{ id := pid, bookingId := req.bookingId, status := .completed,
                transactionId := tid, amount := req.amount, currency := req.currency,
                paymentMethod := req.paymentMethod, failureReason := none },
              [{ userId := placeholderUser, type := .payment_success }],
              ?_, Or.inl rfl, by simp⟩
      simp [PaymentsService.process_payment, PaymentsRepository.create_payment, hnex]
  | true =>
      refine ⟨{ id := pid, bookingId := req.bookingId, status := .failed,
                transactionId := tid, amount := req.amount, currency := req.currency,
                paymentMethod := req.paymentMethod,
                failureReason := some (PaymentsService.get_random_failure_reason reasonIdx) },
              [{ userId := placeholderUser, type := .payment_failed }],
              ?_, Or.inr rfl, by simp⟩
      simp [PaymentsService.process_payment, PaymentsRepository.create_payment, hnex]

/-- Concrete payment request for the C4 witness. -/
def c4req : PaymentRequest :=
  { bookingId := "b1", amount := 50, currency := "USD", paymentMethod := c6pm }

/-- Empty store for witnesses. -/
def emptyDb : Db :=
  { users := [], services := [], bookings := [], payments := [], refunds := [] }

/-- Witness for C4 on the empty store. -/
theorem c4_witness :
    (PaymentsService.process_payment emptyDb c4req false 0 "p1" "t1").isSome = true := by
  obtain ⟨pay, evs, heq, -, -⟩ :=
    c4_process_payment_postcondition emptyDb c4req false 0 "p1" "t1" (by decide)
  rw [heq]
  rfl

/-! ## C2: ProcessRefund precondition and effect -/

/-- C2. `process_refund` returns `none` and changes nothing when the
payment is missing or its status is not `completed`; for a `completed`
payment (with a fresh refund id, so the insert succeeds) it appends
exactly one refund row with status `completed` and the payment's
amount, and flips that payment's status to `refunded`. -/
theorem c2_process_refund_precondition_effect (db : Db) (pid : String)
    (reason : Option String) (rid : String) :
    (PaymentsRepository.get_payment db pid = none →
      PaymentsService.process_refund db pid reason rid = some (db, none, [])) ∧
    (∀ p, PaymentsRepository.get_payment db pid = some p → p.status ≠ .completed →
      PaymentsService.process_refund db pid reason rid = some (db, none, [])) ∧
    (∀ p, PaymentsRepository.get_payment db pid = some p → p.status = .completed →
      (∀ r ∈ db.refunds, ¬ r.id = rid) →
      PaymentsService.process_refund db pid reason rid =
        some ({ db with
                  payments := db.payments.map (fun q =>
                    if q.id = pid then { q with status := .refunded, failureReason := none } else q),
                  refunds := db.refunds ++
                    [{ id := rid, paymentId := pid, status := .completed,
                       amount := p.amount,
                       reason := some (reason.getD defaultRefundReason) }] },
              some { id := rid, paymentId := pid, status := .completed,
                     amount := p.amount,
                     reason := some (reason.getD defaultRefundReason) },
              [{ userId := placeholderUser, type := .refund_processed }])) := by
  refine ⟨?_, ?_, ?_⟩
  · intro h
    simp [PaymentsService.process_refund, h]
  · intro p hp hstat
    simp [PaymentsService.process_refund, hp, hstat]
  · intro p hp hstat hfresh
    have hany : (db.refunds.any fun x => x.id = rid) = false :=
      (anyP_eq_false_iff _ _).mpr hfresh
    simp [PaymentsService.process_refund, hp, hstat,
          PaymentsRepository.create_refund, hany,
          PaymentsRepository.update_payment_status]

/-- Concrete completed payment for the C2 witness. -/
def c2pay : Payment :=
  { id := "p1", bookingId := "b1", status := .completed, transactionId := "t1",
    amount := 50, currency := "USD", paymentMethod := c6pm, failureReason := none }

/-- Store holding only `c2pay`. -/
def c2db : Db :=
  { users := [], services := [], bookings := [], payments := [c2pay], refunds := [] }

/-- Witness for C2: refunding the concrete completed payment succeeds. -/
theorem c2_witness :
    (PaymentsService.process_refund c2db "p1" none "r1").isSome = true := by
  rw [(c2_process_refund_precondition_effect c2db "p1" none "r1").2.2 c2pay rfl rfl
    (by decide)]
  rfl

/-! ## Characterization of `update_booking` / `delete_booking` -/

/-- The requester is authorized for the booking: their resolved identity
is the booking's customer or provider. -/
def authorizedFor (db : Db) (bid email : String) : Prop :=
  ∃ b, BookingsRepository.get_booking db bid = some b ∧
    ∃ u, UsersRepository.get_by_email db email = some u ∧
      (u.id = b.customerId ∨ u.id = b.providerId)

theorem upd_booking_missing (db : Db) (bid : String) (payload : BookingUpdateRequest)
    (email : String) (h : BookingsRepository.get_booking db bid = none) :
    BookingsService.update_booking db bid payload email = (db, none, []) := by
  simp [BookingsService.update_booking, h]

theorem upd_user_missing (db : Db) (bid : String) (payload : BookingUpdateRequest)
    (email : String) (b : Booking) (hb : BookingsRepository.get_booking db bid = some b)
    (hu : UsersRepository.get_by_email db email = none) :
    BookingsService.update_booking db bid payload email = (db, none, []) := by
  simp [BookingsService.update_booking, hb, hu]

theorem upd_unauthorized (db : Db) (bid : String) (payload : BookingUpdateRequest)
    (email : String) (b : Booking) (u : User)
    (hb : BookingsRepository.get_booking db bid = some b)
    (hu : UsersRepository.get_by_email db email = some u)
    (hne : b.customerId ≠ u.id ∧ b.providerId ≠ u.id) :
    BookingsService.update_booking db bid payload email = (db, none, []) := by
  simp [BookingsService.update_booking, hb, hu, hne]

theorem upd_authorized (db : Db) (bid : String) (payload : BookingUpdateRequest)
    (email : String) (b : Booking) (u : User)
    (hb : BookingsRepository.get_booking db bid = some b)
    (hu : UsersRepository.get_by_email db email = some u)
    (hauth : u.id = b.customerId ∨ u.id = b.providerId) :
    BookingsService.update_booking db bid payload email =
      (let row : Booking :=
         { b with id := bid, status := payload.status.getD b.status,
                  notes := match payload.notes with
                           | some n => some n
                           | none => b.notes }
       let db1 : Db := { db with bookings := db.bookings.map (fun x => if x.id = bid then row else x) }
       let statusChanged : Bool :=
         match payload.status with
         | some s => decide (s ≠ b.status)
         | none => false
       let evs : List Event :=
         if statusChanged then
           match ServicesRepository.get_service db1 b.serviceId with
           | some _ =>
               [{ userId := b.customerId, type := .booking_updated },
                { userId := b.providerId, type := .booking_updated }]
           | none => []
         else []
       (db1, some row, evs)) := by
  have hmem := List.mem_of_find?_eq_some hb
  have hbid : b.id = bid := by
    have := List.find?_some hb
    simpa using this
  have hany : (db.bookings.any fun x => x.id = bid) = true :=
    (anyP_eq_true_iff _ _).mpr ⟨b, hmem, hbid⟩
  have hnot : ¬ (b.customerId ≠ u.id ∧ b.providerId ≠ u.id) := by
    rcases hauth with h | h
    · exact fun hc => hc.1 h.symm
    · exact fun hc => hc.2 h.symm
  simp [BookingsService.update_booking, hb, hu, hnot,
        BookingsRepository.update_booking, hany]

theorem del_booking_missing (db : Db) (bid email : String)
    (h : BookingsRepository.get_booking db bid = none) :
    BookingsService.delete_booking db bid email = (db, false) := by
  simp [BookingsService.delete_booking, h]

theorem del_user_missing (db : Db) (bid email : String) (b : Booking)
    (hb : BookingsRepository.get_booking db bid = some b)
    (hu : UsersRepository.get_by_email db email = none) :
    BookingsService.delete_booking db bid email = (db, false) := by
  simp [BookingsService.delete_booking, hb, hu]

theorem del_unauthorized (db : Db) (bid email : String) (b : Booking) (u : User)
    (hb : BookingsRepository.get_booking db bid = some b)
    (hu : UsersRepository.get_by_email db email = some u)
    (hne : b.customerId ≠ u.id ∧ b.providerId ≠ u.id) :
    BookingsService.delete_booking db bid email = (db, false) := by
  simp [BookingsService.delete_booking, hb, hu, hne]

theorem del_authorized (db : Db) (bid email : String) (b : Booking) (u : User)
    (hb : BookingsRepository.get_booking db bid = some b)
    (hu : UsersRepository.get_by_email db email = some u)
    (hauth : u.id = b.customerId ∨ u.id = b.providerId) :
    BookingsService.delete_booking db bid email =
      ({ db with bookings := db.bookings.filter (fun x => ¬ x.id = bid) }, true) := by
  have hmem := List.mem_of_find?_eq_some hb
  have hbid : b.id = bid := by
    have := List.find?_some hb
    simpa using this
  have hany : (db.bookings.any fun x => x.id = bid) = true :=
    (anyP_eq_true_iff _ _).mpr ⟨b, hmem, hbid⟩
  have hnot : ¬ (b.customerId ≠ u.id ∧ b.providerId ≠ u.id) := by
    rcases hauth with h | h
    · exact fun hc => hc.1 h.symm
    · exact fun hc => hc.2 h.symm
  simp [BookingsService.delete_booking, hb, hu, hnot,
        BookingsRepository.delete_booking, hany]

/-! ## C3: authorization on update/delete -/

/-- C3. `update_booking` and `delete_booking` succeed exactly when the
requester's email resolves to a user whose id is the booking's customer
or provider; in every other case — the booking missing, the requester
unknown, or the requester a third party — both return the one fixed
rejection result (`none` resp. `false`, state untouched), so a rejected
caller cannot tell whether the booking exists. -/
theorem c3_booking_authorization (db : Db) (bid : String)
    (payload : BookingUpdateRequest) (email : String) :
    ((BookingsService.update_booking db bid payload email).2.1.isSome = true ↔
        authorizedFor db bid email) ∧
    ((BookingsService.delete_booking db bid email).2 = true ↔
        authorizedFor db bid email) ∧
    (¬ authorizedFor db bid email →
      BookingsService.update_booking db bid payload email = (db, none, []) ∧
      BookingsService.delete_booking db bid email = (db, false)) := by
  by_cases hA : authorizedFor db bid email
  · obtain ⟨b, hb, u, hu, hauth⟩ := hA
    refine ⟨?_, ?_, fun hn => absurd ⟨b, hb, u, hu, hauth⟩ hn⟩
    · rw [upd_authorized db bid payload email b u hb hu hauth]
      simpa using ⟨b, hb, u, hu, hauth⟩
    · rw [del_authorized db bid email b u hb hu hauth]
      simpa using ⟨b, hb, u, hu, hauth⟩
  · have hrej : BookingsService.update_booking db bid payload email = (db, none, []) ∧
        BookingsService.delete_booking db bid email = (db, false) := by
      cases hb : BookingsRepository.get_booking db bid with
      | none =>
          exact ⟨upd_booking_missing db bid payload email hb,
                 del_booking_missing db bid email hb⟩
      | some b =>
          cases hu : UsersRepository.get_by_email db email with
          | none =>
              exact ⟨upd_user_missing db bid payload email b hb hu,
                     del_user_missing db bid email b hb hu⟩
          | some u =>
              have hne : b.customerId ≠ u.id ∧ b.providerId ≠ u.id := by
                constructor
                · intro h
                  exact hA ⟨b, hb, u, hu, Or.inl h.symm⟩
                · intro h
                  exact hA ⟨b, hb, u, hu, Or.inr h.symm⟩
              exact ⟨upd_unauthorized db bid payload email b u hb hu hne,
                     del_unauthorized db bid email b u hb hu hne⟩
    refine ⟨?_, ?_, fun _ => hrej⟩
    · rw [hrej.1]
      simpa using hA
    · rw [hrej.2]
      simpa using hA

instance instDecAuthorizedFor (db : Db) (bid email : String) :
    Decidable (authorizedFor db bid email) :=
  match hb : BookingsRepository.get_booking db bid with
  | none =>
      isFalse (by
        rintro ⟨b, hb2, -⟩
        rw [hb] at hb2
        cases hb2)
  | some b =>
      match hu : UsersRepository.get_by_email db email with
      | none =>
          isFalse (by
            rintro ⟨b', hb2, u, hu2, -⟩
            rw [hu] at hu2
            cases hu2)
      | some u =>
          if h : u.id = b.customerId ∨ u.id = b.providerId then
            isTrue ⟨b, hb, u, hu, h⟩
          else
            isFalse (by
              rintro ⟨b', hb2, u', hu2, hauth⟩
              rw [hb] at hb2
              rw [hu] at hu2
              cases hb2
              cases hu2
              exact h hauth)

/-- Concrete scenario for the C3 witness: a booking between `cu` and
`pu`, and an unrelated requester `eve`. -/
def c3booking : Booking :=
  { id := "b1", customerId := "cu", serviceId := "s1", providerId := "pu",
    status := .confirmed, duration := 60, totalAmount := 50, notes := none }

def c3db : Db :=
  { users := [{ id := "cu", email := "c@x" }, { id := "pu", email := "p@x" },
              { id := "eu", email := "eve@x" }],
    services := [], bookings := [c3booking], payments := [], refunds := [] }

def c3payload : BookingUpdateRequest := { status := some .cancelled, notes := none }

/-- Witness for C3: the unrelated requester is rejected with the fixed
rejection result on both operations. -/
theorem c3_witness :
    BookingsService.update_booking c3db "b1" c3payload "eve@x" = (c3db, none, []) ∧
    BookingsService.delete_booking c3db "b1" "eve@x" = (c3db, false) :=
  (c3_booking_authorization c3db "b1" c3payload "eve@x").2.2 (by decide)

/-! ## C5: notification type on cancellation -/

/-- Outcome (a) of the spec's saga-atomicity claim: exactly one booking
with the attempted id, status `CONFIRMED`, and exactly one `completed`
payment for it. -/
def sagaOutcomeA (db' : Db) (bid : String) : Prop :=
  (db'.bookings.filter fun b => b.id = bid ∧ b.status = .confirmed).length = 1 ∧
  (db'.payments.filter fun p => p.bookingId = bid ∧ p.status = .completed).length = 1

/-- Outcome (b) of the spec's saga-atomicity claim: no booking with the
attempted id, but a `failed` payment for it together with a `completed`
refund referencing that payment. -/
def sagaOutcomeB (db' : Db) (bid : String) : Prop :=
  (∀ b ∈ db'.bookings, ¬ b.id = bid) ∧
  ∃ p ∈ db'.payments, p.bookingId = bid ∧ p.status = .failed ∧
    ∃ r ∈ db'.refunds, r.paymentId = p.id ∧ r.status = .completed

/-- Concrete input for the C1 counterexample: a well-formed store and a
valid request whose service exists. -/
def c1svc : Service :=
  { id := "s1", providerId := "pu", name := "Yoga", price := 50, durationMinutes := 60 }

def c1db : Db :=
  { users := [{ id := "cu", email := "c@x" }, { id := "pu", email := "p@x" }],
    services := [c1svc], bookings := [], payments := [], refunds := [] }

def c1payload : BookingCreateRequest :=
  { serviceId := "s1", notes := none,
    payment := { bookingId := "tbd", amount := 50, currency := "USD",
                 paymentMethod := c6pm } }

/-- Counterexample to C1 as stated: at this CreateBooking call the
service resolves, so the method raises (no `get_by_id` on
`UsersRepository`) and terminates abnormally with the store untouched —
afterwards neither spec outcome holds: there is no CONFIRMED booking
with a completed payment, and no failed payment with a completed refund
either; nothing was persisted at all. -/
theorem c1_counterexample :
    BookingsService.create_booking c1db "c@x" c1payload = (c1db, .error) ∧
    ¬ (sagaOutcomeA (BookingsService.create_booking c1db "c@x" c1payload).1 "b1" ∨
       sagaOutcomeB (BookingsService.create_booking c1db "c@x" c1payload).1 "b1") := by
  constructor
  · rfl
  · rintro (h | h)
    · exact absurd h.1 (by decide)
    · rcases h.2 with ⟨p, hp, -⟩
      have h0 : (BookingsService.create_booking c1db "c@x" c1payload).1.payments = [] := rfl
      rw [h0] at hp
      cases hp

/-- C1 amended. Every CreateBooking call leaves the store exactly as it
was: a call whose service is missing returns a CreateFailed result, and
every call whose service resolves propagates an exception from the
provider-resolution step (`UsersRepository` has no `get_by_id`), before
any Booking, Payment or Refund is persisted. Consequently, for any ids
fresh in the store, neither of the spec's two saga outcomes ever holds
afterwards. -/
theorem c1_saga_atomicity_amended (db : Db) (email : String)
    (payload : BookingCreateRequest) :
    (ServicesRepository.get_service db payload.serviceId = none →
      BookingsService.create_booking db email payload = (db, .ok none)) ∧
    (∀ service, ServicesRepository.get_service db payload.serviceId = some service →
      BookingsService.create_booking db email payload = (db, .error)) ∧
    (BookingsService.create_booking db email payload).1 = db ∧
    (∀ bid, (∀ b ∈ db.bookings, ¬ b.id = bid) →
      (∀ p ∈ db.payments, ¬ p.bookingId = bid) →
      ¬ (sagaOutcomeA (BookingsService.create_booking db email payload).1 bid ∨
         sagaOutcomeB (BookingsService.create_booking db email payload).1 bid)) := by
  have hframe : (BookingsService.create_booking db email payload).1 = db := by
    unfold BookingsService.create_booking
    cases ServicesRepository.get_service db payload.serviceId with
    | none => rfl
    | some service => rfl
  refine ⟨?_, ?_, hframe, ?_⟩
  · intro h
    simp [BookingsService.create_booking, h]
  · intro service h
    simp [BookingsService.create_booking, h]
  · intro bid hb hp
    rw [hframe]
    rintro (h | h)
    · rcases h with ⟨h1, -⟩
      have h0 : (db.bookings.filter fun b => b.id = bid ∧ b.status = .confirmed) = [] :=
        filterP_eq_nil _ _ (fun b hbm hc => hb b hbm hc.1)
      rw [h0] at h1
      cases h1
    · rcases h with ⟨-, p, hpm, hpb, -⟩
      exact hp p hpm hpb

/-- Witness for C1 (amended) at the concrete store: the call that finds
the service propagates the exception and persists nothing. -/
theorem c1_witness :
    BookingsService.create_booking c1db "c@x" c1payload = (c1db, .error) ∧
    ¬ sagaOutcomeA (BookingsService.create_booking c1db "c@x" c1payload).1 "b9" := by
  have h := c1_saga_atomicity_amended c1db "c@x" c1payload
  exact ⟨h.2.1 c1svc rfl,
    fun ha => h.2.2.2 "b9" (by decide) (by decide) (Or.inl ha)⟩

/-! ## C9: subscriber-registry invariant -/

/-- Every user key in the subscriber registry maps to a non-empty list
of channels. -/
def SubscribersInv (s : NotifState) : Prop :=
  ∀ p ∈ s.subscribers, p.2 ≠ []

/-- The same invariant for `SSEManager._connections`. -/
def SSEInv (ss : SSEState) : Prop :=
  ∀ p ∈ ss.connections, p.2 ≠ []

theorem inv_unsubscribe (s : NotifState) (u : String) (c : Nat)
    (h : SubscribersInv s) : SubscribersInv (NotificationsService.unsubscribe s u c) := by
  unfold NotificationsService.unsubscribe
  cases hcon : s.conns u with
  | none => exact h
  | some l =>
      by_cases hc : c ∈ l
      · by_cases hl : l.erase c = []
        · simp only [hc, if_true, hl, if_pos]
          intro p hp
          exact h p (List.mem_of_mem_filter hp)
        · simp only [hc, if_true, hl, if_neg, if_false]
          intro p hp
          rcases List.mem_map.mp hp with ⟨q, hq, rfl⟩
          by_cases hqu : q.1 = u
          · simp only [hqu, if_true]
            exact hl
          · simp only [hqu, if_false]
            exact h q hq
      · simp only [hc, if_false]
        exact h

theorem put_subscribers_closed (s s' : NotifState) (d : Nat) (msg : String)
    (hput : s.put d msg = some s') :
    s'.subscribers = s.subscribers ∧ s'.closed = s.closed := by
  unfold NotifState.put at hput
  by_cases hd : d ∈ s.closed
  · rw [if_pos hd] at hput
    cases hput
  · rw [if_neg hd] at hput
    cases hput
    exact ⟨rfl, rfl⟩

theorem sendLoop_subscribers_closed (msg : String) :
    ∀ (l : List Nat) (s : NotifState) (acc : List Nat),
      (NotificationsService.sendLoop l s acc msg).1.subscribers = s.subscribers ∧
      (NotificationsService.sendLoop l s acc msg).1.closed = s.closed := by
  intro l
  induction l with
  | nil => intro s acc; exact ⟨rfl, rfl⟩
  | cons d rest ih =>
      intro s acc
      unfold NotificationsService.sendLoop
      cases hput : s.put d msg with
      | none => exact ih s (acc ++ [d])
      | some s' =>
          obtain ⟨h1, h2⟩ := put_subscribers_closed s s' d msg hput
          obtain ⟨h3, h4⟩ := ih s' acc
          exact ⟨h3.trans h1, h4.trans h2⟩

theorem inv_foldl_unsub (u : String) :
    ∀ (l : List Nat) (s : NotifState), SubscribersInv s →
      SubscribersInv (l.foldl (fun st c => NotificationsService.unsubscribe st u c) s) := by
  intro l
  induction l with
  | nil => intro s h; exact h
  | cons a t ih =>
      intro s h
      exact ih (NotificationsService.unsubscribe s u a) (inv_unsubscribe s u a h)

theorem inv_broadcast (s : NotifState) (u : String) (m : String)
    (h : SubscribersInv s) :
    SubscribersInv (NotificationsService.broadcast_to_user s u m) := by
  unfold NotificationsService.broadcast_to_user
  cases hcon : s.conns u with
  | none => exact h
  | some conns =>
      apply inv_foldl_unsub
      intro p hp
      rw [(sendLoop_subscribers_closed m conns s []).1] at hp
      exact h p hp

/-- C9. After any `Subscribe`, `Unsubscribe` or `Broadcast` on the
notification service's registry — including a broadcast that drops
closed channels — and after `SSEManager._remove_connection` on the SSE
registry, every user key still maps to a non-empty channel list. -/
theorem c9_subscriber_registry_invariant (s : NotifState) (ss : SSEState)
    (u : String) (c : Nat) (m : String)
    (h : SubscribersInv s) (hss : SSEInv ss) :
    SubscribersInv (NotificationsService.subscribe s u c) ∧
    SubscribersInv (NotificationsService.unsubscribe s u c) ∧
    SubscribersInv (NotificationsService.broadcast_to_user s u m) ∧
    SSEInv (SSEManager.remove_connection ss u c) := by
  refine ⟨?_, inv_unsubscribe s u c h, inv_broadcast s u m h, ?_⟩
  · unfold NotificationsService.subscribe
    cases hcon : s.conns u with
    | none =>
        intro p hp
        rcases List.mem_append.mp hp with hp | hp
        · exact h p hp
        · rcases List.mem_singleton.mp hp with rfl
          simp
    | some l =>
        intro p hp
        rcases List.mem_map.mp hp with ⟨q, hq, rfl⟩
        by_cases hqu : q.1 = u
        · simp only [hqu, if_true]
          simp
        · simp only [hqu, if_false]
          exact h q hq
  · unfold SSEManager.remove_connection
    cases hcon : (ss.connections.find? fun p => p.1 = u).map Prod.snd with
    | none => exact hss
    | some l =>
        by_cases hc : c ∈ l
        · by_cases hl : l.erase c = []
          · simp only [hc, if_true, hl, if_pos]
            intro p hp
            exact hss p (List.mem_of_mem_filter hp)
          · simp only [hc, if_true, hl, if_neg, if_false]
            intro p hp
            rcases List.mem_map.mp hp with ⟨q, hq, rfl⟩
            by_cases hqu : q.1 = u
            · simp only [hqu, if_true]
              exact hl
            · simp only [hqu, if_false]
              exact hss q hq
        · simp only [hc, if_false]
          exact hss

instance instDecSubscribersInv (s : NotifState) : Decidable (SubscribersInv s) :=
  inferInstanceAs (Decidable (∀ p ∈ s.subscribers, p.2 ≠ []))

instance instDecSSEInv (ss : SSEState) : Decidable (SSEInv ss) :=
  inferInstanceAs (Decidable (∀ p ∈ ss.connections, p.2 ≠ []))

/-- Concrete registries for the C9 witness. -/
def c9s : NotifState :=
  { subscribers := [("u1", [0, 1])], queues := [(0, []), (1, [])], closed := [1] }

def c9ss : SSEState := { connections := [("u1", [0])] }

/-- Witness for C9 at concrete registries. -/
theorem c9_witness :
    SubscribersInv (NotificationsService.unsubscribe c9s "u1" 0) ∧
    SSEInv (SSEManager.remove_connection c9ss "u1" 0) := by
  have h := c9_subscriber_registry_invariant c9s c9ss "u1" 0 "m"
    (by decide) (by decide)
  exact ⟨h.2.1, h.2.2.2⟩

/-! ## C8: per-recipient FIFO delivery -/

theorem find?_key_map {κ β : Type} [DecidableEq κ] (l : List (κ × β)) (k : κ)
    (g : κ × β → κ × β) (hg : ∀ q, (g q).1 = q.1) :
    ((l.map g).find? fun q => q.1 = k) = (l.find? fun q => q.1 = k).map g := by
  induction l with
  | nil => rfl
  | cons a t ih =>
      simp only [List.map_cons]
      by_cases ha : a.1 = k
      · rw [List.find?_cons_of_pos _ (by simp [hg a, ha]),
            List.find?_cons_of_pos _ (by simp [ha])]
        rfl
      · rw [List.find?_cons_of_neg _ (by simp [hg a, ha]),
            List.find?_cons_of_neg _ (by simp [ha])]
        exact ih

theorem put_closed_eq (s s' : NotifState) (d : Nat) (msg : String)
    (hput : s.put d msg = some s') : s'.closed = s.closed :=
  (put_subscribers_closed s s' d msg hput).2

theorem put_find?_self (s s' : NotifState) (c : Nat) (msg : String)
    (hput : s.put c msg = some s') (q0 : Nat × List String)
    (hq : (s.queues.find? fun q => q.1 = c) = some q0) :
    (s'.queues.find? fun q => q.1 = c) = some (q0.1, q0.2 ++ [msg]) := by
  have hc0 : q0.1 = c := by simpa using List.find?_some hq
  unfold NotifState.put at hput
  by_cases hd : c ∈ s.closed
  · rw [if_pos hd] at hput
    cases hput
  · rw [if_neg hd] at hput
    cases hput
    show ((s.queues.map fun q => if q.1 = c then (q.1, q.2 ++ [msg]) else q).find?
        fun q => q.1 = c) = some (q0.1, q0.2 ++ [msg])
    rw [find?_key_map s.queues c _ (fun q => by by_cases h : q.1 = c <;> simp [h]), hq]
    simp [hc0]

theorem put_find?_other (s s' : NotifState) (c d : Nat) (msg : String) (hne : ¬ d = c)
    (hput : s.put d msg = some s') :
    (s'.queues.find? fun q => q.1 = c) = s.queues.find? fun q => q.1 = c := by
  unfold NotifState.put at hput
  by_cases hd : d ∈ s.closed
  · rw [if_pos hd] at hput
    cases hput
  · rw [if_neg hd] at hput
    cases hput
    show ((s.queues.map fun q => if q.1 = d then (q.1, q.2 ++ [msg]) else q).find?
        fun q => q.1 = c) = s.queues.find? fun q => q.1 = c
    rw [find?_key_map s.queues c _ (fun q => by by_cases h : q.1 = d <;> simp [h])]
    cases hq : s.queues.find? fun q => q.1 = c with
    | none => rfl
    | some q0 =>
        have hc0 : q0.1 = c := by simpa using List.find?_some hq
        have : ¬ q0.1 = d := fun e => hne (e ▸ hc0 ▸ rfl)
        simp [Option.map, this]

theorem put_fails (s : NotifState) (d : Nat) (msg : String) (hd : d ∈ s.closed) :
    s.put d msg = none := by
  unfold NotifState.put
  rw [if_pos hd]

theorem sendLoop_find? (msg : String) (c : Nat) :
    ∀ (l : List Nat) (s : NotifState) (acc : List Nat),
      c ∉ s.closed →
      ∀ q0, (s.queues.find? fun q => q.1 = c) = some q0 →
      ∃ q1, ((NotificationsService.sendLoop l s acc msg).1.queues.find?
          fun q => q.1 = c) = some q1 ∧
        q1.2 = q0.2 ++ List.replicate (l.count c) msg := by
  intro l
  induction l with
  | nil =>
      intro s acc _ q0 hq
      exact ⟨q0, hq, by simp⟩
  | cons d rest ih =>
      intro s acc hopen q0 hq
      unfold NotificationsService.sendLoop
      by_cases hd : d ∈ s.closed
      · rw [put_fails s d msg hd]
        have hdc : ¬ d = c := fun e => hopen (e ▸ hd)
        obtain ⟨q1, h1, h2⟩ := ih s (acc ++ [d]) hopen q0 hq
        refine ⟨q1, h1, ?_⟩
        rw [h2, List.count_cons_of_ne (fun e => hdc e.symm)]
      · cases hput : s.put d msg with
        | none =>
            unfold NotifState.put at hput
            rw [if_neg hd] at hput
            cases hput
        | some s₁ =>
            have hcl : s₁.closed = s.closed := put_closed_eq s s₁ d msg hput
            have hopen₁ : c ∉ s₁.closed := by rw [hcl]; exact hopen
            by_cases hdc : d = c
            · subst hdc
              have hq₁ := put_find?_self s s₁ d msg hput q0 hq
              obtain ⟨q1, h1, h2⟩ := ih s₁ acc hopen₁ (q0.1, q0.2 ++ [msg]) hq₁
              refine ⟨q1, h1, ?_⟩
              rw [h2]
              simp [List.count_cons_self, List.replicate_succ, List.append_assoc]
            · have hq₁ : (s₁.queues.find? fun q => q.1 = c) = some q0 := by
                rw [put_find?_other s s₁ c d msg hdc hput]
                exact hq
              obtain ⟨q1, h1, h2⟩ := ih s₁ acc hopen₁ q0 hq₁
              refine ⟨q1, h1, ?_⟩
              rw [h2, List.count_cons_of_ne (fun e => hdc e.symm)]

theorem sendLoop_failed (msg : String) :
    ∀ (l : List Nat) (s : NotifState) (acc : List Nat),
      ∀ x ∈ (NotificationsService.sendLoop l s acc msg).2, x ∈ acc ∨ x ∈ s.closed := by
  intro l
  induction l with
  | nil =>
      intro s acc x hx
      exact Or.inl hx
  | cons d rest ih =>
      intro s acc x hx
      unfold NotificationsService.sendLoop at hx
      by_cases hd : d ∈ s.closed
      · rw [put_fails s d msg hd] at hx
        rcases ih s (acc ++ [d]) x hx with h | h
        · rcases List.mem_append.mp h with h | h
          · exact Or.inl h
          · rcases List.mem_singleton.mp h with rfl
            exact Or.inr hd
        · exact Or.inr h
      · cases hput : s.put d msg with
        | none =>
            unfold NotifState.put at hput
            rw [if_neg hd] at hput
            cases hput
        | some s₁ =>
            rw [hput] at hx
            have hcl : s₁.closed = s.closed := put_closed_eq s s₁ d msg hput
            rcases ih s₁ acc x hx with h | h
            · exact Or.inl h
            · rw [hcl] at h
              exact Or.inr h

theorem unsub_queues_closed (st : NotifState) (u : String) (x : Nat) :
    (NotificationsService.unsubscribe st u x).queues = st.queues ∧
    (NotificationsService.unsubscribe st u x).closed = st.closed := by
  unfold NotificationsService.unsubscribe
  cases st.conns u with
  | none => exact ⟨rfl, rfl⟩
  | some l =>
      by_cases hx : x ∈ l
      · by_cases hl : l.erase x = []
        · simp only [hx, if_true, hl, if_pos]
          exact ⟨trivial, trivial⟩
        · simp only [hx, if_true, hl, if_neg, if_false]
          exact ⟨trivial, trivial⟩
      · simp only [hx, if_false]
        exact ⟨trivial, trivial⟩

theorem unsub_conns_count (st : NotifState) (u : String) (x c : Nat) (hx : ¬ x = c)
    (l : List Nat) (h : st.conns u = some l) (hcnt : l.count c = 1) :
    ∃ l', (NotificationsService.unsubscribe st u x).conns u = some l' ∧
      l'.count c = 1 := by
  unfold NotificationsService.unsubscribe
  rw [h]
  by_cases hxl : x ∈ l
  · have hcnt' : (l.erase x).count c = 1 := by
      rw [List.count_erase_of_ne (fun e => hx e.symm)]
      exact hcnt
    have hne : ¬ l.erase x = [] := by
      intro e
      rw [e] at hcnt'
      simp at hcnt'
    simp only [hxl, if_true, hne, if_neg, if_false]
    obtain ⟨p0, hp0, hp0l⟩ := Option.map_eq_some'.mp h
    have hp0u : p0.1 = u := by simpa using List.find?_some hp0
    refine ⟨l.erase x, ?_, hcnt'⟩
    unfold NotifState.conns
    rw [find?_key_map st.subscribers u _
      (fun q => by by_cases hq : q.1 = u <;> simp [hq]), hp0]
    simp [hp0u]
  · simp only [hxl, if_false]
    exact ⟨l, h, hcnt⟩

theorem foldl_unsub_queues_closed (u : String) :
    ∀ (r : List Nat) (st : NotifState),
      (r.foldl (fun acc c => NotificationsService.unsubscribe acc u c) st).queues = st.queues ∧
      (r.foldl (fun acc c => NotificationsService.unsubscribe acc u c) st).closed = st.closed := by
  intro r
  induction r with
  | nil => intro st; exact ⟨rfl, rfl⟩
  | cons a t ih =>
      intro st
      obtain ⟨h1, h2⟩ := ih (NotificationsService.unsubscribe st u a)
      obtain ⟨h3, h4⟩ := unsub_queues_closed st u a
      exact ⟨h1.trans h3, h2.trans h4⟩

theorem foldl_unsub_conns_count (u : String) (c : Nat) :
    ∀ (r : List Nat) (st : NotifState), (∀ x ∈ r, ¬ x = c) →
      ∀ l, st.conns u = some l → l.count c = 1 →
      ∃ l', (r.foldl (fun acc x => NotificationsService.unsubscribe acc u x) st).conns u
          = some l' ∧ l'.count c = 1 := by
  intro r
  induction r with
  | nil =>
      intro st _ l hl hcnt
      exact ⟨l, hl, hcnt⟩
  | cons a t ih =>
      intro st hr l hl hcnt
      obtain ⟨l₁, hl₁, hcnt₁⟩ := unsub_conns_count st u a c
        (hr a (List.mem_cons_self a t)) l hl hcnt
      exact ih (NotificationsService.unsubscribe st u a)
        (fun x hx => hr x (List.mem_cons_of_mem a hx)) l₁ hl₁ hcnt₁

/-- Combined effect of one `_broadcast_to_user` on an open channel `c`
subscribed exactly once to `uid`: the frame is appended to `c`'s queue,
and the channel's registration, queue entry and openness survive. -/
theorem broadcast_effect (s : NotifState) (uid : String) (msg : String)
    (c : Nat) (conns : List Nat)
    (hsub : s.conns uid = some conns) (hcount : conns.count c = 1)
    (hopen : c ∉ s.closed) (q0 : Nat × List String)
    (hq : (s.queues.find? fun q => q.1 = c) = some q0) :
    ∃ q1 conns',
      ((NotificationsService.broadcast_to_user s uid msg).queues.find?
          fun q => q.1 = c) = some q1 ∧
      q1.2 = q0.2 ++ [msg] ∧
      (NotificationsService.broadcast_to_user s uid msg).conns uid = some conns' ∧
      conns'.count c = 1 ∧
      (NotificationsService.broadcast_to_user s uid msg).closed = s.closed := by
  unfold NotificationsService.broadcast_to_user
  rw [hsub]
  have hstep := sendLoop_find? msg c conns s [] hopen q0 hq
  obtain ⟨q1, hq1, hq1v⟩ := hstep
  have hfailed : ∀ x ∈ (NotificationsService.sendLoop conns s [] msg).2, ¬ x = c := by
    intro x hx e
    rcases sendLoop_failed msg conns s [] x hx with h | h
    · cases h
    · exact hopen (e ▸ h)
  obtain ⟨hQ, hC⟩ := foldl_unsub_queues_closed uid
    (NotificationsService.sendLoop conns s [] msg).2
    (NotificationsService.sendLoop conns s [] msg).1
  have hsubs := (sendLoop_subscribers_closed msg conns s []).1
  have hclosed := (sendLoop_subscribers_closed msg conns s []).2
  have hconns1 : (NotificationsService.sendLoop conns s [] msg).1.conns uid = some conns := by
    unfold NotifState.conns
    rw [hsubs]
    exact hsub
  obtain ⟨conns', hconns', hcount'⟩ := foldl_unsub_conns_count uid c
    (NotificationsService.sendLoop conns s [] msg).2
    (NotificationsService.sendLoop conns s [] msg).1
    hfailed conns hconns1 hcount
  refine ⟨q1, conns', ?_, ?_, hconns', hcount', ?_⟩
  · rw [hQ]
    exact hq1
  · rw [hq1v, hcount]
    simp
  · rw [hC, hclosed]

/-- C8. Two notifications created for the same recipient, in order, are
delivered in that order to any one channel that is subscribed for that
recipient (registered exactly once, open, with a queue): after the two
`create_notification` calls the channel's queue has gained exactly the
two frames, first notification first. -/
theorem c8_per_recipient_fifo (rows : List Notification) (s : NotifState)
    (uid : String) (ty₁ ty₂ : NotificationType) (nid₁ nid₂ : String)
    (c : Nat) (conns : List Nat) (q0 : Nat × List String)
    (hsub : s.conns uid = some conns) (hcount : conns.count c = 1)
    (hopen : c ∉ s.closed)
    (hq : (s.queues.find? fun q => q.1 = c) = some q0) :
    ∃ q2,
      (((NotificationsService.create_notification
            (NotificationsService.create_notification rows s uid ty₁ nid₁).1
            (NotificationsService.create_notification rows s uid ty₁ nid₁).2
            uid ty₂ nid₂).2).queues.find? fun q => q.1 = c) = some q2 ∧
      q2.2 = q0.2 ++ [nid₁, nid₂] := by
  obtain ⟨q1, conns₁, hq1, hq1v, hconns₁, hcount₁, hclosed₁⟩ :=
    broadcast_effect s uid nid₁ c conns hsub hcount hopen q0 hq
  have hopen₁ : c ∉ (NotificationsService.broadcast_to_user s uid nid₁).closed := by
    rw [hclosed₁]
    exact hopen
  obtain ⟨q2, conns₂, hq2, hq2v, -, -, -⟩ :=
    broadcast_effect (NotificationsService.broadcast_to_user s uid nid₁) uid nid₂
      c conns₁ hconns₁ hcount₁ hopen₁ q1 hq1
  refine ⟨q2, hq2, ?_⟩
  rw [hq2v, hq1v]
  simp

/-- Concrete live state for the C8 witness. -/
def c8s : NotifState :=
  { subscribers := [("u1", [0])], queues := [(0, [])], closed := [] }

/-- Witness for C8 at a concrete subscriber with one open channel. -/
theorem c8_witness :
    ∃ q2,
      (((NotificationsService.create_notification
            (NotificationsService.create_notification [] c8s "u1" .booking_created "n1").1
            (NotificationsService.create_notification [] c8s "u1" .booking_created "n1").2
            "u1" .payment_success "n2").2).queues.find? fun q => q.1 = 0) = some q2 ∧
      q2.2 = ([] : List String) ++ ["n1", "n2"] :=
  c8_per_recipient_fifo [] c8s "u1" .booking_created .payment_success "n1" "n2"
    0 [0] (0, []) rfl (by decide) (by decide) rfl

end Xuman
